import Mathlib

/-!
# Verification of the Questionnaire repository's persistence layer

Shallow embedding of `src/questionnaire.py` and `src/pages/historique.py`.

Cell values are modelled by an inductive `Value`: the data flowing through this
application consists of strings, integer slider notes, and pandas missing/infinite
markers (`np.nan`, `np.inf`, `-np.inf`).  A pandas `DataFrame` row is modelled as an
association list from column label to `Value` (Python dicts preserve insertion
order, and `pd.DataFrame(lignes)` takes its column order from the first row's keys).
-/

/-- A cell value: a string, an integer (slider notes are ints), or one of the
pandas markers `np.nan`, `np.inf`, `-np.inf`. -/
inductive Value where
  | str (s : String)
  | int (n : Int)
  | nan
  | inf
  | ninf
deriving DecidableEq, Repr

/-- One DataFrame row as an association list (column label, cell value). -/
abbrev Row := List (String × Value)

/-- `questionnaire.py` lines 84–95: the fixed list of evaluation criteria. -/
def criteres : List String := [
  "Impact énergie-climat",
  "Coût d’investissement (CAPEX)",
  "Aide-subvention",
  "Retour sur investissement (ROI)",
  "Temps de retour sur investissement",
  "Facilité de mise en œuvre",
  "Effet levier ou structurant",
  "Durée de vie de l’action",
  "Acceptabilité pour les utilisateurs",
  "Visibilité et exemplarité"
]

/-- `questionnaire.py` lines 97–103: the fixed list of evaluation axes. -/
def axes : List String := [
  "pertinence stratégique",
  "capacité discriminante",
  "fiabilité de l\x27évaluation",
  "Acceptabilité politique et sociale",
  "temporalité/Durabilité"
]

/-- The nested responses mapping `st.session_state.reponses`:
criterion ↦ (axis ↦ note), modelled as nested association lists. -/
abbrev Reponses := List (String × List (String × Value))

/-- `reponses.get(critere, \x7b\x7d).get(axe, "")` (`questionnaire.py` line 142):
look up a note with default `""`. -/
def getNote (reponses : Reponses) (critere axe : String) : Value :=
  match reponses.lookup critere with
  | none => .str ""
  | some d => (d.lookup axe).getD (.str "")

/-- `questionnaire.py` lines 136–151: the dict built for one axis (the row `ligne`),
keys in Python insertion order. -/
def ligne (reponses : Reponses) (autres_criteres commentaires id_participant
    date_validation : String) (i : Nat) (axe : String) : Row :=
  [("id_participant", .str id_participant),
   ("date_validation", .str date_validation),
   ("critere_evaluation", .str axe)]
  ++ criteres.map (fun critere => (critere, getNote reponses critere axe))
  ++ (if i = 0 then
        [("Autres critères suggérés", .str autres_criteres),
         ("Commentaires / Remarques", .str commentaires)]
      else
        [("Autres critères suggérés", .str ""),
         ("Commentaires / Remarques", .str "")])

/-- `questionnaire.py` lines 132–152, `transformer_reponses`: pivot the responses
into one row per axis (`for i, axe in enumerate(axes)`). -/
def transformer_reponses (reponses : Reponses) (autres_criteres commentaires
    id_participant date_validation : String) : List Row :=
  axes.enum.map (fun p =>
    ligne reponses autres_criteres commentaires id_participant date_validation p.1 p.2)

/-- The column labels of a DataFrame built from a list of row-dicts with identical
keys: the first row's keys, in order (`pd.DataFrame(lignes)` column order). -/
def df_columns (rows : List Row) : List String :=
  (rows.head?.getD []).map Prod.fst

/-- The column labels `transformer_reponses` always produces, in order. -/
def colonnes : List String :=
  ["id_participant", "date_validation", "critere_evaluation"]
  ++ criteres
  ++ ["Autres critères suggérés", "Commentaires / Remarques"]

example :
    df_columns (transformer_reponses [] "" "" "p" "d") = colonnes := by decide

example :
    (transformer_reponses [("Impact énergie-climat",
        [("pertinence stratégique", Value.int 7)])] "a" "b" "p" "d").length = 5 := by
  decide

/-!
## The embedded store (SQLite) and `sauvegarder_reponses_sqlite`

The store is the single table `evaluations` of `evaluation.db`: present or absent,
plus a flag recording whether another connection currently holds the write lock
(the only sqlite failure mode relevant to the persistence claims). -/

/-- A raw error raised by the sqlite layer itself
(`sqlite3.OperationalError: database is locked`). -/
inductive DbError where
  | locked
deriving DecidableEq, Repr

/-- The spec's failure taxonomy (§7) for the persistence layer, plus `raw` for an
unwrapped store exception propagating to the caller.  The code of
`sauvegarder_reponses_sqlite` has no error handling at all, so `raw` is the only
constructor it ever produces; the others exist so the spec's claims can be stated. -/
inductive Failure where
  | invalidInput
  | lockTimeout
  | schemaIncompatible
  | integrityViolation
  | remoteSink
  | raw (e : DbError)
deriving DecidableEq, Repr

/-- State of `evaluation.db`: the `evaluations` table (`none` while it does not
exist yet) and whether the database is locked by another writer. -/
structure SqliteDb where
  table : Option (List Row)
  locked : Bool
deriving DecidableEq, Repr

/-- `df.to_sql("evaluations", conn, if_exists="append", index=False)`
(`questionnaire.py` line 129): creates the table if absent and appends every row
of the frame (zero rows append nothing); raises the raw locked error if another
connection holds the write lock. -/
def to_sql (df : List Row) (db : SqliteDb) : Except DbError SqliteDb :=
  if db.locked then .error .locked
  else .ok { db with table := some (db.table.getD [] ++ df) }

deriving instance DecidableEq for Except

/-- `questionnaire.py` lines 127–130, `sauvegarder_reponses_sqlite`: connect,
`to_sql` append, close.  No input validation, no retry, no error handling: a store
error propagates to the caller unwrapped. -/
def sauvegarder_reponses_sqlite (df : List Row) (db : SqliteDb) :
    Except Failure SqliteDb :=
  (to_sql df db).mapError Failure.raw

/-!
## The remote sheet and `sauvegarder_reponses_google_sheets`

pandas frames are columnar: the datetime-handling loop of lines 52–54 branches on
the *dtype* of each column, so the frame passed to the sheet writer is modelled
column-wise.  The remote sheet itself is a list of rows of display strings
(gspread's `row_values` returns strings, and `append_rows` with
`value_input_option="USER_ENTERED"` lets the sheet re-infer cell types from the
text form). -/

/-- A timestamp, with the fields `strftime("%Y-%m-%d %H:%M:%S")` renders. -/
structure DateTime where
  y : Nat
  mo : Nat
  d : Nat
  h : Nat
  mi : Nat
  s : Nat
deriving DecidableEq, Repr

/-- Zero-pad to two digits. -/
def pad2 (n : Nat) : String :=
  if n < 10 then "0" ++ toString n else toString n

/-- Zero-pad to four digits. -/
def pad4 (n : Nat) : String :=
  if n < 10 then "000" ++ toString n
  else if n < 100 then "00" ++ toString n
  else if n < 1000 then "0" ++ toString n
  else toString n

/-- `strftime("%Y-%m-%d %H:%M:%S")`. -/
def DateTime.format (t : DateTime) : String :=
  pad4 t.y ++ "-" ++ pad2 t.mo ++ "-" ++ pad2 t.d ++ " "
    ++ pad2 t.h ++ ":" ++ pad2 t.mi ++ ":" ++ pad2 t.s

/-- Data of one frame column: a datetime64 column (`none` is `NaT`) or a plain
object/numeric column of `Value` cells. -/
inductive ColData where
  | datetime (l : List (Option DateTime))
  | obj (l : List Value)
deriving DecidableEq, Repr

/-- A pandas DataFrame, columnar view: labelled columns in order. -/
structure Df where
  cols : List (String × ColData)
deriving DecidableEq, Repr

/-- `df.replace([np.nan, np.inf, -np.inf], "", regex=False)` on one cell
(`questionnaire.py` line 55). -/
def replaceCell : Value → Value
  | .nan => .str ""
  | .inf => .str ""
  | .ninf => .str ""
  | v => v

/-- The datetime pass of lines 52–54 on one column: a datetime64 column is
rendered to strings (`NaT` strftimes to NaN); any other column is untouched. -/
def strftimeCol : ColData → List Value
  | .datetime l => l.map (fun o => match o with
      | some t => .str t.format
      | none => .nan)
  | .obj l => l

/-- `questionnaire.py` lines 51–55: the cleaning applied to the frame before the
sheet write — datetime columns stringified, then `nan`/`±inf` replaced by `""`
across the whole frame. -/
def nettoyer (df : Df) : Df :=
  ⟨df.cols.map (fun c => (c.1, ColData.obj ((strftimeCol c.2).map replaceCell)))⟩

/-- Number of cells in a column. -/
def colLen : ColData → Nat
  | .datetime l => l.length
  | .obj l => l.length

/-- Cell `i` of a column (`Value.nan` when out of range; a raw datetime cell is
rendered via `format`, though `nettoyer` has always run first). -/
def colGet : ColData → Nat → Value
  | .obj l, i => (l.get? i).getD .nan
  | .datetime l, i => match (l.get? i).getD none with
      | some t => .str t.format
      | none => .nan

/-- `df.astype(object).values.tolist()` (`questionnaire.py` line 75): the frame's
rows, row-major. -/
def valuesRows (df : Df) : List (List Value) :=
  (List.range ((df.cols.head?.map (fun c => colLen c.2)).getD 0)).map
    (fun i => df.cols.map (fun c => colGet c.2 i))

/-- Display-string form of a cell, as gspread stores/returns it. -/
def cellToString : Value → String
  | .str s => s
  | .int n => toString n
  | .nan => ""
  | .inf => "inf"
  | .ninf => "-inf"

/-- The remote sheet: a list of rows of display strings. -/
abbrev Sheet := List (List String)

/-- `sheet.row_values(1)`: the first row's values (`[]` for an empty sheet). -/
def row_values1 (sheet : Sheet) : List String :=
  (sheet.head?).getD []

/-- `sheet.update("A1", [headers])` / `sheet.update("1:1", [headers])`: set row 1. -/
def setRow1 (headers : List String) (sheet : Sheet) : Sheet :=
  match sheet with
  | [] => [headers]
  | _ :: t => headers :: t

/-- `questionnaire.py` lines 35–77, `sauvegarder_reponses_google_sheets`: clean the
frame, then reconcile headers under `header_mode`, then append the data rows.
The `sheet_id`/credential plumbing (lines 41–48) selects which sheet object the
calls below act on and is presentation/config, not modelled; the sheet acted on is
the `sheet` argument. -/
def sauvegarder_reponses_google_sheets (df : Df) (header_mode : String)
    (sheet : Sheet) : Sheet :=
  let df' := nettoyer df
  let headers := (df'.cols.map Prod.fst)
  let sheet1 :=
    if header_mode ≠ "keep" then
      let first_row := row_values1 sheet
      if first_row = [] then setRow1 headers sheet
      else if first_row ≠ headers then
        if header_mode = "insert_if_missing" then headers :: sheet
        else if header_mode = "overwrite" then setRow1 headers sheet
        else sheet
      else sheet
    else sheet
  let rows := (valuesRows df').map (fun r => r.map cellToString)
  if rows.isEmpty then sheet1 else sheet1 ++ rows

example :
    sauvegarder_reponses_google_sheets ⟨[("a", .obj [.int 1])]⟩ "keep" []
      = [["1"]] := by decide

example :
    sauvegarder_reponses_google_sheets ⟨[("a", .obj [.int 1])]⟩ "insert_if_missing"
      [["old"]] = [["a"], ["old"], ["1"]] := by decide

example :
    sauvegarder_reponses_google_sheets ⟨[("a", .obj [.int 1])]⟩ "overwrite"
      [["old"], ["2"]] = [["a"], ["2"], ["1"]] := by decide

/-!
## `valider_questionnaire`: the dual-sink submission -/

/-- Columnar view of a row-dict frame, for handing `transformer_reponses` output to
the sheet writer (a cell missing from a row reads back as `NaN`, as in pandas). -/
def toColumnar (rows : List Row) : Df :=
  ⟨(df_columns rows).map (fun c =>
    (c, ColData.obj (rows.map (fun r => (r.lookup c).getD .nan))))⟩

/-- `questionnaire.py` lines 211–228, `valider_questionnaire`: build the frame with
`transformer_reponses`, write it to sqlite, then to the Google sheet with
`header_mode="insert_if_missing"`.  `remote_ok` models whether the remote sheet
calls succeed; when they raise, the exception propagates (the sheet write performed
no completed mutation in the modelled failure, and `st.session_state.fin` is never
set) — the sqlite write is *not* rolled back on either exit path. -/
def valider_questionnaire (reponses : Reponses)
    (autre_critere commentaires id_participant date_validation : String)
    (db : SqliteDb) (sheet : Sheet) (remote_ok : Bool) :
    SqliteDb × Sheet × Except Failure Unit :=
  let df_final := transformer_reponses reponses autre_critere commentaires
      id_participant date_validation
  match sauvegarder_reponses_sqlite df_final db with
  | .error e => (db, sheet, .error e)
  | .ok db' =>
      if remote_ok then
        (db', sauvegarder_reponses_google_sheets (toColumnar df_final)
              "insert_if_missing" sheet, .ok ())
      else
        (db', sheet, .error .remoteSink)

/-!
## `pages/historique.py`: the aggregation/reporting reader

Reads the `evaluations` table back, renames `date_validation → Date` and
`critere_evaluation → Axe`, melts the criterion columns into long form, coerces
notes to numbers (`errors="coerce"`), drops the missing ones, and aggregates per
criterion and per axis.  Numbers are modelled in `ℚ`; since the square root of a
rational is not rational, the `ÉcartType` (sample standard deviation, pandas
`ddof=1`) aggregate is carried as its square `«ÉcartTypeCarré»`. -/

/-- `historique.py` lines 27–30: column renaming. -/
def renameKey (k : String) : String :=
  if k = "date_validation" then "Date"
  else if k = "critere_evaluation" then "Axe"
  else k

/-- Apply the renaming to every row of the table. -/
def renameTable (df : List Row) : List Row :=
  df.map (fun r => r.map (fun kv => (renameKey kv.1, kv.2)))

/-- `historique.py` lines 33–39: the meta columns. -/
def meta_cols : List String :=
  ["id_participant", "Date", "Axe", "Autres critères suggérés",
   "Commentaires / Remarques"]

/-- `historique.py` line 42: every column that is not meta is a criterion column. -/
def critere_cols (df : List Row) : List String :=
  (df_columns df).filter (fun c => ¬ meta_cols.contains c)

/-- One row of the melted long frame (`historique.py` lines 45–50). -/
structure LongRow where
  Date : Value
  Axe : Value
  id_participant : Value
  «Critère» : String
  Note : Value
deriving DecidableEq, Repr

/-- `df.melt(id_vars=..., value_vars=critere_cols, var_name="Critère",
value_name="Note")`: one long row per (criterion column, table row), stacked
per value variable as pandas does. -/
def melt (df : List Row) : List LongRow :=
  (critere_cols df).flatMap (fun c =>
    df.map (fun r =>
      { Date := (r.lookup "Date").getD .nan
        Axe := (r.lookup "Axe").getD .nan
        id_participant := (r.lookup "id_participant").getD .nan
        «Critère» := c
        Note := (r.lookup c).getD .nan }))

/-- `pd.to_numeric(long["Note"], errors="coerce")` on one cell: ints pass, strings
of digits parse, everything else coerces to missing.  (`±inf` does not occur in
table data and has no `ℚ` image; it is sent to missing.) -/
def toNum : Value → Option ℚ
  | .int n => some (n : ℚ)
  | .str s => (s.toNat?).map (fun n => (n : ℚ))
  | _ => none

/-- A long row after `to_numeric` + `dropna(subset=["Note"])`
(`historique.py` lines 53–54). -/
structure CleanRow where
  Date : Value
  Axe : Value
  id_participant : Value
  «Critère» : String
  Note : ℚ
deriving DecidableEq, Repr

/-- Lines 53–54: coerce every note, dropping rows whose note is missing.  (Line 56
additionally parses `Date`; the statistics never read it, so it is kept as-is.) -/
def cleanLong (l : List LongRow) : List CleanRow :=
  l.filterMap (fun r => (toNum r.Note).map (fun q =>
    { Date := r.Date, Axe := r.Axe, id_participant := r.id_participant,
      «Critère» := r.«Critère», Note := q }))

/-- Lexicographic order on char lists by code point, for sorting group keys. -/
def lexLe : List Char → List Char → Bool
  | [], _ => true
  | _ :: _, [] => false
  | a :: as, b :: bs =>
      if a.val < b.val then true
      else if a.val = b.val then lexLe as bs
      else false

/-- Insert into a string list sorted ascending. -/
def insStr (x : String) : List String → List String
  | [] => [x]
  | y :: t => if lexLe x.data y.data then x :: y :: t else y :: insStr x t

/-- Sort strings ascending (pandas `groupby` sorts group keys). -/
def sortStr (l : List String) : List String :=
  l.foldr insStr []

/-- Collapse adjacent duplicates of a sorted list. -/
def dedupSorted : List String → List String
  | [] => []
  | [x] => [x]
  | x :: y :: t =>
      if x = y then dedupSorted (y :: t) else x :: dedupSorted (y :: t)

/-- Insert into a rational list sorted ascending. -/
def insQ (x : ℚ) : List ℚ → List ℚ
  | [] => [x]
  | y :: t => if x ≤ y then x :: y :: t else y :: insQ x t

/-- Sort rationals ascending. -/
def sortQ (l : List ℚ) : List ℚ :=
  l.foldr insQ []

/-- Mean of a list of rationals (0 on the empty list, which no group produces). -/
def moyenne (l : List ℚ) : ℚ :=
  l.sum / l.length

/-- pandas median: middle of the sorted values, or the mean of the two middles. -/
def mediane (l : List ℚ) : ℚ :=
  let s := sortQ l
  if s.length % 2 = 1 then (s.get? (s.length / 2)).getD 0
  else ((s.get? (s.length / 2 - 1)).getD 0 + (s.get? (s.length / 2)).getD 0) / 2

/-- Square of the sample standard deviation (pandas `std`, `ddof=1`); 0 stands in
for the undefined/`NaN` value on groups of fewer than two observations. -/
def ecartTypeCarre (l : List ℚ) : ℚ :=
  if l.length ≤ 1 then 0
  else (l.map (fun x => (x - moyenne l) ^ 2)).sum / ((l.length : ℚ) - 1)

/-- Minimum of a list of rationals (0 on the empty list). -/
def minQ (l : List ℚ) : ℚ :=
  (sortQ l).head?.getD 0

/-- Maximum of a list of rationals (0 on the empty list). -/
def maxQ (l : List ℚ) : ℚ :=
  (sortQ l).getLast?.getD 0

/-- One row of the aggregated statistics tables of `historique.py` lines 59–69
(`«ÉcartTypeCarré»` carries the square of the `ÉcartType` aggregate, see above). -/
structure StatsRow where
  key : String
  N : Nat
  Moyenne : ℚ
  «Médiane» : ℚ
  «ÉcartTypeCarré» : ℚ
  Min : ℚ
  Max : ℚ
deriving DecidableEq, Repr

/-- Aggregate one group's notes. -/
def mkStats (k : String) (notes : List ℚ) : StatsRow :=
  { key := k, N := notes.length, Moyenne := moyenne notes,
    «Médiane» := mediane notes, «ÉcartTypeCarré» := ecartTypeCarre notes,
    Min := minQ notes, Max := maxQ notes }

/-- Insert into a stats list sorted by `Moyenne` descending
(`sort_values("Moyenne", ascending=False)`). -/
def insMoy (x : StatsRow) : List StatsRow → List StatsRow
  | [] => [x]
  | y :: t => if y.Moyenne < x.Moyenne then x :: y :: t else y :: insMoy x t

/-- Sort stats rows by mean, descending. -/
def sortMoyDesc (l : List StatsRow) : List StatsRow :=
  l.foldr insMoy []

/-- `groupby(key)["Note"].agg(...)` then `sort_values("Moyenne", ascending=False)`:
group keys ascending (pandas groupby sorts), aggregate each group's notes, sort the
result by mean descending. -/
def group_agg (key : CleanRow → String) (l : List CleanRow) : List StatsRow :=
  let keys := dedupSorted (sortStr (l.map key))
  sortMoyDesc (keys.map (fun k =>
    mkStats k ((l.filter (fun r => key r = k)).map (fun r => r.Note))))

/-- The cleaned long frame obtained from the raw `evaluations` table
(`historique.py` lines 27–56). -/
def longClean (df : List Row) : List CleanRow :=
  cleanLong (melt (renameTable df))

/-- `historique.py` lines 59–63, `stats_crit`: statistics per criterion. -/
def stats_crit (df : List Row) : List StatsRow :=
  group_agg (fun r => r.«Critère») (longClean df)

/-- `historique.py` lines 65–69, `stats_axes`: statistics per axis (group keys are
the axis cell values, which are strings in this table). -/
def stats_axes (df : List Row) : List StatsRow :=
  group_agg (fun r => cellToString r.Axe) (longClean df)

/-- A concrete `evaluations`-table row for exercising the aggregation reader:
one criterion column `C1`, axis `axe`, observed value `v`. -/
def rowC9 (axe : String) (v : Value) : Row :=
  [("id_participant", .str "p1"), ("date_validation", .str "2025-01-01 10:00:00"),
   ("critere_evaluation", .str axe), ("C1", v)]

/-- A concrete table whose criterion `C1` carries the numeric observations
`[2, 4, 4, 8, 10]` plus one non-numeric cell `"x"` that coercion must drop. -/
def tableC9 : List Row :=
  [rowC9 "A1" (.int 2), rowC9 "A1" (.int 4), rowC9 "A2" (.str "x"),
   rowC9 "A2" (.int 4), rowC9 "A1" (.int 8), rowC9 "A2" (.int 10)]

/-!
## Shared helper lemmas -/

/-- Line 55's replacement is idempotent on a cell. -/
theorem replaceCell_idem (v : Value) : replaceCell (replaceCell v) = replaceCell v := by
  cases v <;> rfl

/-- The guarded append of `questionnaire.py` lines 76–77 is an append. -/
theorem append_if_nonempty (s rows : Sheet) :
    (if rows.isEmpty then s else s ++ rows) = s ++ rows := by
  cases rows <;> simp

/-- Looking a criterion up in one assembled row yields its `getNote` cell. -/
theorem lookup_ligne_critere (reponses : Reponses) (a b idp dv : String) (i : Nat)
    (axe : String) {c : String} (hc : c ∈ criteres) :
    (ligne reponses a b idp dv i axe).lookup c = some (getNote reponses c axe) := by
  fin_cases hc <;> rfl

/-- A (criterion, axis) pair absent from the responses mapping reads as `""`. -/
theorem getNote_missing (reponses : Reponses) (c axe : String)
    (h : (reponses.lookup c).bind (fun d => d.lookup axe) = none) :
    getNote reponses c axe = .str "" := by
  unfold getNote
  cases hr : reponses.lookup c with
  | none => rfl
  | some d =>
      rw [hr] at h
      simp only [Option.bind] at h
      simp [h]

/-!
## Claim C1 — empty batch and the embedded-store writer -/

/-- C1 (counterexample): writing an empty batch to the embedded store does *not*
fail with `InvalidInput`: `sauvegarder_reponses_sqlite` performs its normal store
interaction and succeeds, appending zero rows. -/
theorem sqlite_empty_batch_ok_cx :
    sauvegarder_reponses_sqlite [] ⟨some [], false⟩ = Except.ok ⟨some [], false⟩
    ∧ sauvegarder_reponses_sqlite [] ⟨some [], false⟩
        ≠ Except.error Failure.invalidInput := by
  decide

/-- C1 (amended): writing an empty batch performs the normal store write — it
creates the table if absent and appends zero rows, so the store's row content is
unchanged — and raises no failure at all (in particular no `InvalidInput`). -/
theorem sqlite_empty_batch_no_failure (db : SqliteDb) (h : db.locked = false) :
    sauvegarder_reponses_sqlite [] db
      = Except.ok ⟨some (db.table.getD []), db.locked⟩ := by
  simp [sauvegarder_reponses_sqlite, to_sql, Except.mapError, h]

/-- Witness for `sqlite_empty_batch_no_failure` at a store without a table. -/
theorem sqlite_empty_batch_no_failure_witness :
    sauvegarder_reponses_sqlite [] ⟨none, false⟩ = Except.ok ⟨some [], false⟩ :=
  sqlite_empty_batch_no_failure ⟨none, false⟩ rfl

/-!
## Claim C2 — lock contention and the embedded-store writer -/

/-- C2 (counterexample): on a locked store the writer surfaces the raw
`database is locked` error on its single attempt; it never produces `LockTimeout`
(there is no retry loop at all in `sauvegarder_reponses_sqlite`). -/
theorem sqlite_locked_raw_error_cx :
    sauvegarder_reponses_sqlite [[("id_participant", Value.str "p1")]] ⟨some [], true⟩
        = Except.error (Failure.raw DbError.locked)
    ∧ sauvegarder_reponses_sqlite [[("id_participant", Value.str "p1")]] ⟨some [], true⟩
        ≠ Except.error Failure.lockTimeout := by
  decide

/-- C2 (amended): `sauvegarder_reponses_sqlite` makes exactly one attempt: a
lock/contention error is not retried, there is no backoff, and the raw locked
error — not a `LockTimeout` — propagates directly to the caller. -/
theorem sqlite_locked_no_retry (df : List Row) (db : SqliteDb)
    (h : db.locked = true) :
    sauvegarder_reponses_sqlite df db = Except.error (Failure.raw DbError.locked) := by
  simp [sauvegarder_reponses_sqlite, to_sql, Except.mapError, h]

/-- Witness for `sqlite_locked_no_retry`. -/
theorem sqlite_locked_no_retry_witness :
    sauvegarder_reponses_sqlite [] ⟨none, true⟩
      = Except.error (Failure.raw DbError.locked) :=
  sqlite_locked_no_retry [] ⟨none, true⟩ rfl

/-!
## Claim C4 — remote-sink failure does not roll back the embedded store -/

/-- C4: when the sqlite write of a submission has committed and the subsequent
Google-Sheets write fails, `valider_questionnaire` leaves the committed rows in
the embedded store: the final store holds the old rows followed by the
submission's rows, even though the call surfaces the remote failure. -/
theorem valider_remote_failure_keeps_db (reponses : Reponses)
    (autres comm idp datev : String) (db : SqliteDb) (sheet : Sheet)
    (h : db.locked = false) :
    (valider_questionnaire reponses autres comm idp datev db sheet false).1
        = ⟨some (db.table.getD []
            ++ transformer_reponses reponses autres comm idp datev), false⟩
    ∧ (valider_questionnaire reponses autres comm idp datev db sheet false).2.2
        = Except.error Failure.remoteSink := by
  constructor <;>
    simp [valider_questionnaire, sauvegarder_reponses_sqlite, to_sql, Except.mapError, h]

/-- Witness for `valider_remote_failure_keeps_db`. -/
theorem valider_remote_failure_keeps_db_witness :
    (valider_questionnaire [] "" "" "p" "d" ⟨some [], false⟩ [] false).1
      = ⟨some (transformer_reponses [] "" "" "p" "d"), false⟩ := by
  have h := valider_remote_failure_keeps_db [] "" "" "p" "d" ⟨some [], false⟩ [] rfl
  simpa using h.1

/-!
## Claim C3 — header reconciliation of the remote-sheet writer -/

/-- C3 (counterexample): with no header row present (empty sheet) under policy
`keep`, the writer does *not* write the current column list as the header: the
whole header block is skipped, and the first row of the resulting sheet is the
first data row, not the column list `["a"]`. -/
theorem sheets_keep_no_header_cx :
    sauvegarder_reponses_google_sheets ⟨[("a", ColData.obj [Value.int 1])]⟩ "keep" []
        = [["1"]]
    ∧ (sauvegarder_reponses_google_sheets
        ⟨[("a", ColData.obj [Value.int 1])]⟩ "keep" []).head? ≠ some ["a"] := by
  decide

/-- C3 (amended): header reconciliation of `sauvegarder_reponses_google_sheets`.
With a pre-existing mismatched header row, `insert_if_missing` inserts the column
list above the existing rows (the old header survives as data), `overwrite`
replaces row 1 in place, and `keep` leaves the sheet untouched apart from the
appended data rows.  When no header row exists, the column list is written as
row 1 under `insert_if_missing` and `overwrite` only — under `keep` no header is
ever written. -/
theorem sheets_header_reconciliation (df : Df) (sheet : Sheet) :
    ((row_values1 sheet ≠ [] → row_values1 sheet ≠ (nettoyer df).cols.map Prod.fst →
        sauvegarder_reponses_google_sheets df "insert_if_missing" sheet
          = ((nettoyer df).cols.map Prod.fst :: sheet)
            ++ (valuesRows (nettoyer df)).map (fun r => r.map cellToString))
    ∧ (row_values1 sheet ≠ [] → row_values1 sheet ≠ (nettoyer df).cols.map Prod.fst →
        sauvegarder_reponses_google_sheets df "overwrite" sheet
          = setRow1 ((nettoyer df).cols.map Prod.fst) sheet
            ++ (valuesRows (nettoyer df)).map (fun r => r.map cellToString))
    ∧ (sauvegarder_reponses_google_sheets df "keep" sheet
          = sheet ++ (valuesRows (nettoyer df)).map (fun r => r.map cellToString))
    ∧ (row_values1 sheet = [] →
        sauvegarder_reponses_google_sheets df "insert_if_missing" sheet
          = setRow1 ((nettoyer df).cols.map Prod.fst) sheet
            ++ (valuesRows (nettoyer df)).map (fun r => r.map cellToString)
        ∧ sauvegarder_reponses_google_sheets df "overwrite" sheet
          = setRow1 ((nettoyer df).cols.map Prod.fst) sheet
            ++ (valuesRows (nettoyer df)).map (fun r => r.map cellToString))) := by
  refine ⟨?_, ?_, ?_, ?_⟩
  · intro h1 h2
    rw [sauvegarder_reponses_google_sheets, append_if_nonempty]
    rw [if_pos (by decide : ("insert_if_missing" : String) ≠ "keep"),
        if_neg h1, if_pos h2,
        if_pos (rfl : ("insert_if_missing" : String) = "insert_if_missing")]
  · intro h1 h2
    rw [sauvegarder_reponses_google_sheets, append_if_nonempty]
    rw [if_pos (by decide : ("overwrite" : String) ≠ "keep"),
        if_neg h1, if_pos h2,
        if_neg (by decide : ¬ ("overwrite" : String) = "insert_if_missing"),
        if_pos (rfl : ("overwrite" : String) = "overwrite")]
  · rw [sauvegarder_reponses_google_sheets, append_if_nonempty]
    rw [if_neg (by simp : ¬ ("keep" : String) ≠ "keep")]
  · intro h1
    constructor
    · rw [sauvegarder_reponses_google_sheets, append_if_nonempty]
      rw [if_pos (by decide : ("insert_if_missing" : String) ≠ "keep"), if_pos h1]
    · rw [sauvegarder_reponses_google_sheets, append_if_nonempty]
      rw [if_pos (by decide : ("overwrite" : String) ≠ "keep"), if_pos h1]

/-- Witness for `sheets_header_reconciliation`: a one-column, one-row frame,
applied both to a sheet with a mismatched header row and to an empty sheet. -/
theorem sheets_header_reconciliation_witness :
    (sauvegarder_reponses_google_sheets ⟨[("a", ColData.obj [Value.int 1])]⟩
        "insert_if_missing" [["old"]] = [["a"], ["old"], ["1"]]
      ∧ sauvegarder_reponses_google_sheets ⟨[("a", ColData.obj [Value.int 1])]⟩
        "overwrite" [["old"], ["2"]] = [["a"], ["2"], ["1"]]
      ∧ sauvegarder_reponses_google_sheets ⟨[("a", ColData.obj [Value.int 1])]⟩
        "keep" [["old"]] = [["old"], ["1"]]
      ∧ sauvegarder_reponses_google_sheets ⟨[("a", ColData.obj [Value.int 1])]⟩
        "insert_if_missing" [] = [["a"], ["1"]]) := by
  refine ⟨?_, ?_, ?_, ?_⟩
  · have h := (sheets_header_reconciliation ⟨[("a", ColData.obj [Value.int 1])]⟩
      [["old"]]).1 (by decide) (by decide)
    simpa using h
  · have h := (sheets_header_reconciliation ⟨[("a", ColData.obj [Value.int 1])]⟩
      [["old"], ["2"]]).2.1 (by decide) (by decide)
    simpa using h
  · have h := (sheets_header_reconciliation ⟨[("a", ColData.obj [Value.int 1])]⟩
      [["old"]]).2.2.1
    simpa using h
  · have h := ((sheets_header_reconciliation ⟨[("a", ColData.obj [Value.int 1])]⟩
      []).2.2.2 (by decide)).1
    simpa using h

/-!
## Claim C5 — canonical form of the column labels -/

/-- Modelled from the spec: "sanitized form contains only lower-case word
characters and underscores, no leading/trailing/doubled underscores" — the
doubled-underscore test on the character list. -/
def hasDoubleUnderscore : List Char → Bool
  | a :: b :: t => (a = '_' && b = '_') || hasDoubleUnderscore (b :: t)
  | _ => false

/-- Modelled from the spec: the canonical-token predicate on a column label —
only lower-case word characters (lower-case letters, digits) and underscores,
with no leading, trailing, or doubled underscores. -/
def canonicalTokenSpec (s : String) : Bool :=
  s.data.all (fun c => c.isLower || c.isDigit || c = '_')
  && !(s.startsWith "_") && !(s.endsWith "_")
  && !(hasDoubleUnderscore s.data)

/-- C5 (counterexample): the result set assembled by `transformer_reponses` —
exactly what `valider_questionnaire` hands to both sinks — carries the criterion
label `"Impact énergie-climat"` verbatim as a column, and that label is not in
canonical token form (capitals, accents, spaces, a hyphen). -/
theorem colonnes_not_canonical_cx :
    "Impact énergie-climat"
        ∈ df_columns (transformer_reponses [] "" "" "p1" "2025-01-01 10:00:00")
    ∧ canonicalTokenSpec "Impact énergie-climat" = false := by
  decide

/-- C5 (amended): no column-label sanitization exists anywhere on the write path:
the result set's column labels are exactly the original field names — the three
metadata keys, the ten French criterion labels verbatim (with spaces, capitals
and accents), and the two free-text headings. -/
theorem colonnes_passed_verbatim (reponses : Reponses)
    (autres comm idp datev : String) :
    df_columns (transformer_reponses reponses autres comm idp datev) = colonnes := by
  rfl

/-!
## Claim C6 — idempotence of the pre-write sanitization -/

/-- C6: the cleaning `questionnaire.py` lines 51–55 apply before the sheet write
(datetime columns rendered as `"YYYY-MM-DD HH:MM:SS"` strings, `nan`/`±inf`
collapsed to `""`) is idempotent: cleaning an already-cleaned frame changes
nothing. -/
theorem nettoyer_idempotent (df : Df) : nettoyer (nettoyer df) = nettoyer df := by
  obtain ⟨cols⟩ := df
  simp only [nettoyer, List.map_map]
  congr 1
  apply List.map_congr_left
  intro c _
  simp only [Function.comp, strftimeCol, List.map_map]
  exact congrArg (fun l => (c.1, ColData.obj l))
    (List.map_congr_left (fun v _ => by simpa using replaceCell_idem v))

/-!
## Claim C7 — one row per axis, constant participant id and timestamp -/

/-- C7: for every submission, `transformer_reponses` emits exactly one row per
evaluation axis — the row count equals `axes.length` — and every row carries the
same `id_participant` and the same `date_validation`. -/
theorem transformer_une_ligne_par_axe (reponses : Reponses)
    (autres comm idp datev : String) :
    (transformer_reponses reponses autres comm idp datev).length = axes.length
    ∧ ∀ row ∈ transformer_reponses reponses autres comm idp datev,
        row.lookup "id_participant" = some (.str idp)
        ∧ row.lookup "date_validation" = some (.str datev) := by
  constructor
  · simp [transformer_reponses]
  · intro row h
    obtain ⟨p, -, rfl⟩ := List.mem_map.mp h
    exact ⟨rfl, rfl⟩

/-- Witness for `transformer_une_ligne_par_axe` on the first row of a concrete
submission. -/
theorem transformer_une_ligne_par_axe_witness :
    (transformer_reponses [] "a" "b" "p" "d").length = axes.length
    ∧ ((transformer_reponses [] "a" "b" "p" "d").headI).lookup "id_participant"
        = some (.str "p") := by
  refine ⟨(transformer_une_ligne_par_axe [] "a" "b" "p" "d").1, ?_⟩
  exact ((transformer_une_ligne_par_axe [] "a" "b" "p" "d").2
    ((transformer_reponses [] "a" "b" "p" "d").headI) (by decide)).1

/-!
## Claim C8 — free text only on the first row -/

/-- C8: the two free-text fields carry the submitted text on the first assembled
row and are the empty string on every later row of the submission. -/
theorem transformer_texte_libre_premiere_ligne (reponses : Reponses)
    (autres comm idp datev : String) :
    ((transformer_reponses reponses autres comm idp datev).head?.map
        (fun r => (r.lookup "Autres critères suggérés",
                   r.lookup "Commentaires / Remarques")))
      = some (some (.str autres), some (.str comm))
    ∧ ∀ row ∈ (transformer_reponses reponses autres comm idp datev).drop 1,
        row.lookup "Autres critères suggérés" = some (.str "")
        ∧ row.lookup "Commentaires / Remarques" = some (.str "") := by
  constructor
  · rfl
  · intro row h
    simp only [transformer_reponses, axes, List.enum, List.enumFrom, List.map,
      List.drop, List.mem_cons, List.not_mem_nil, or_false] at h
    rcases h with rfl | rfl | rfl | rfl <;> exact ⟨rfl, rfl⟩

/-- Witness for `transformer_texte_libre_premiere_ligne` on the second row of a
concrete submission. -/
theorem transformer_texte_libre_premiere_ligne_witness :
    ((transformer_reponses [] "a" "b" "p" "d").head?.map
        (fun r => (r.lookup "Autres critères suggérés",
                   r.lookup "Commentaires / Remarques")))
      = some (some (.str "a"), some (.str "b"))
    ∧ (((transformer_reponses [] "a" "b" "p" "d").drop 1).headI).lookup
        "Autres critères suggérés" = some (.str "") := by
  refine ⟨(transformer_texte_libre_premiere_ligne [] "a" "b" "p" "d").1, ?_⟩
  exact ((transformer_texte_libre_premiere_ligne [] "a" "b" "p" "d").2
    (((transformer_reponses [] "a" "b" "p" "d").drop 1).headI) (by decide)).1

/-!
## Claim C9 — the aggregation reader -/

/-- C9: the reader melts the wide table into long form, coerces the non-numeric
observation to missing and drops it, and aggregates per criterion and per axis
independently.  On `tableC9`, criterion `C1`'s observed values `[2,4,4,8,10]`
yield count 5, mean 5.6, median 4, min 2 and max 10 (the squared sample standard
deviation is 54/5); grouping by axis independently gives `A2` (values `[4,10]`)
mean 7 and `A1` (values `[2,4,8]`) mean 14/3, sorted by mean descending. -/
theorem stats_tableC9 :
    stats_crit tableC9
        = [{ key := "C1", N := 5, Moyenne := 5.6, «Médiane» := 4,
             «ÉcartTypeCarré» := 54/5, Min := 2, Max := 10 }]
    ∧ stats_axes tableC9
        = [{ key := "A2", N := 2, Moyenne := 7, «Médiane» := 7,
             «ÉcartTypeCarré» := 18, Min := 4, Max := 10 },
           { key := "A1", N := 3, Moyenne := 14/3, «Médiane» := 4,
             «ÉcartTypeCarré» := 28/3, Min := 2, Max := 8 }] := by
  constructor <;> with_unfolding_all rfl

/-!
## Claim C10 — totality of the result-set assembly -/

/-- C10: `transformer_reponses` is total over arbitrary response mappings: it
always emits one row per axis, every row carries exactly the fixed column list
(one column per criterion), and any (criterion, axis) score absent from the
responses appears as an empty-string cell. -/
theorem transformer_total (reponses : Reponses) (autres comm idp datev : String) :
    (transformer_reponses reponses autres comm idp datev).length = axes.length
    ∧ (∀ row ∈ transformer_reponses reponses autres comm idp datev,
        row.map Prod.fst = colonnes)
    ∧ (∀ (i : Nat) (axe : String) (row : Row),
        axes[i]? = some axe →
        (transformer_reponses reponses autres comm idp datev)[i]? = some row →
        ∀ c ∈ criteres,
          (reponses.lookup c).bind (fun d => d.lookup axe) = none →
            row.lookup c = some (.str "")) := by
  refine ⟨by simp [transformer_reponses], ?_, ?_⟩
  · intro row h
    obtain ⟨⟨i, axe⟩, -, rfl⟩ := List.mem_map.mp h
    by_cases hi : i = 0
    · subst hi; rfl
    · show (ligne reponses autres comm idp datev i axe).map Prod.fst = colonnes
      unfold ligne
      rw [if_neg hi]
      rfl
  · intro i axe row hax hrow c hc hn
    have henum : (axes.enum)[i]? = some (i, axe) := by
      rw [List.getElem?_enum, hax]
      rfl
    rw [transformer_reponses, List.getElem?_map, henum, Option.map_some'] at hrow
    obtain rfl : ligne reponses autres comm idp datev i axe = row :=
      Option.some.inj hrow
    rw [lookup_ligne_critere reponses autres comm idp datev i axe hc,
        getNote_missing reponses c axe hn]

/-- Witness for `transformer_total` on the empty responses mapping: the first row
of the assembly, the first axis, and the first criterion. -/
theorem transformer_total_witness :
    (transformer_reponses [] "" "" "p" "d").length = axes.length
    ∧ ((transformer_reponses [] "" "" "p" "d").headI).map Prod.fst = colonnes
    ∧ ((transformer_reponses [] "" "" "p" "d").headI).lookup
        "Impact énergie-climat" = some (.str "") := by
  refine ⟨(transformer_total [] "" "" "p" "d").1, ?_, ?_⟩
  · exact (transformer_total [] "" "" "p" "d").2.1
      ((transformer_reponses [] "" "" "p" "d").headI) (by decide)
  · exact (transformer_total [] "" "" "p" "d").2.2 0 "pertinence stratégique"
      ((transformer_reponses [] "" "" "p" "d").headI) rfl rfl
      "Impact énergie-climat" (by decide) rfl
